import Mathlib

/-!
Verification of the Indeed.de job-scraper repository.

The Python sources are shallowly embedded as pure Lean functions:
`src/utils.py` (URL construction, CSV/JSON saving) and
`src/manual_scraper.py` (selector-based extraction, navigation prompt loop).
Selenium elements, the WebDriver and the interactive console are modelled
as explicit data (`Elem`, `Card`, `Driver`, an input list); a raised
exception at a modelled call site is an explicit constructor or `none`.
-/

namespace JobScraper

/-! ### utils.py: build_indeed_url -/

/-- One step of Python `str.replace(' ', '+')`: the pattern is the
single character `' '`, so the replacement acts characterwise. -/
def spaceToPlus (c : Char) : Char := if c = ' ' then '+' else c

/-- Embeds `s.replace(' ', '+')` from `build_indeed_url`. For a
single-character pattern and replacement, Python's `str.replace`
is exactly a character map. -/
def replaceSpaces (s : String) : String := String.mk (s.data.map spaceToPlus)

/-- The local variable `url` of `build_indeed_url` before pagination:
`f"https://de.indeed.com/jobs?q={job_title}&l={location}&radius={radius}&limit={limit}"`
with the space-replaced title and location. -/
def base_url (job_title location : String) (radius limit : Int) : String :=
  "https://de.indeed.com/jobs?q=" ++ replaceSpaces job_title ++ "&l=" ++
    replaceSpaces location ++ "&radius=" ++ toString radius ++ "&limit=" ++ toString limit

/-- Embeds `build_indeed_url(job_title, location, radius, start=0, limit=15)`
from `src/utils.py`. Python ints are modelled as `Int`. -/
def build_indeed_url (job_title location : String) (radius start limit : Int) : String :=
  let url := base_url job_title location radius limit
  if start > 0 then url ++ "&start=" ++ toString start else url

/-! ### Python string primitives, embedded at the character-list level

Lean's own `String.splitOn`, `String.trim` and `String.toLower` are not
kernel-reducible, so the Python primitives used by the scraper are embedded
directly on `List Char`, with the same semantics as CPython's `str.split`
(non-empty separator, non-overlapping left-to-right), `str.strip()` and
`str.lower()`. -/

/-- Fuel-driven worker for `str.split(sep)` with a non-empty separator:
scan left to right; at each occurrence of `sep` emit the accumulated piece
and skip the separator. The fuel is an upper bound on the scanned length,
so it never runs out when set to `length + 1`. -/
def splitFuel (sep : List Char) : Nat → List Char → List Char → List (List Char)
  | 0, l, acc => [acc.reverse ++ l]
  | _ + 1, [], acc => [acc.reverse]
  | n + 1, c :: rest, acc =>
    if sep.isPrefixOf (c :: rest) then
      acc.reverse :: splitFuel sep n (List.drop sep.length (c :: rest)) []
    else
      splitFuel sep n rest (c :: acc)

/-- Embeds Python `s.split(sep)` for a non-empty separator string. -/
def pySplit (sep s : String) : List String :=
  (splitFuel sep.data (s.data.length + 1) s.data []).map String.mk

/-- Embeds Python `s.strip()`: drop leading and trailing whitespace. -/
def pyStrip (s : String) : String :=
  String.mk (((s.data.dropWhile Char.isWhitespace).reverse.dropWhile
    Char.isWhitespace).reverse)

/-- Embeds Python `s.lower()` for the ASCII command strings the scraper
compares against. -/
def pyLower (s : String) : String := String.mk (s.data.map Char.toLower)

/-! ### manual_scraper.py: the DOM model

`_extract_job_data` interrogates a job-card element only through
`find_element(By.CSS_SELECTOR, sel)` (which returns the first matching
element, raises `NoSuchElementException`, or raises some other driver
error), `.text` and `.get_attribute("href")` (which is a string or
Python `None`). A card is therefore modelled as a function from selector
strings to a three-way lookup result. -/

/-- A rendered DOM element: its visible text and its `href` attribute
(`none` models Python `None` from `get_attribute`). -/
structure Elem where
  text : String
  href : Option String
deriving DecidableEq

/-- Result of `card.find_element(By.CSS_SELECTOR, sel)`: an element, a
`NoSuchElementException`, or any other raised exception. -/
inductive FindRes where
  | found (e : Elem)
  | noSuch
  | err
deriving DecidableEq

/-- A job-card element, seen through selector lookups. -/
structure Card where
  find : String → FindRes

/-- The WebDriver, seen through `find_elements(By.CSS_SELECTOR, sel)`:
`none` models the lookup raising (caught by the bare `except`). -/
structure Driver where
  findElements : String → Option (List Card)

/-! Selector tables hard-coded in `manual_scraper.py`. -/

def title_selectors : List String :=
  ["h2.jobTitle span", "h2.jobTitle a span", "a.jcs-JobTitle span", ".jobTitle"]

def company_selectors : List String :=
  ["span[data-testid='company-name']", ".companyName", ".company_location .companyName"]

def location_selectors : List String :=
  ["div[data-testid='text-location']", ".companyLocation", ".company_location .companyLocation"]

def salary_selectors : List String :=
  ["div[data-testid='attribute_snippet_testid']", ".salary-snippet", ".salaryOnly"]

def url_selectors : List String :=
  ["h2.jobTitle a", "a.jcs-JobTitle", ".jobTitle a"]

def snippet_selectors : List String :=
  ["div.job-snippet", ".job-snippet", ".job-snippet-container"]

def date_selectors : List String :=
  ["span.date", ".date", ".new"]

def card_selectors : List String :=
  ["div[data-testid='jobCard']", ".jobsearch-ResultsList > div",
   "#mosaic-provider-jobcards .job_seen_beacon"]

/-- One `for selector in selectors: try ... except NoSuchElementException:
continue` loop from `_extract_job_data`: the first selector that finds an
element wins (`found`), `noSuch` continues to the next selector, and any
other exception escapes the loop (`err`, caught only by the function's
outer handler). `noSuch` as the overall result means the list was
exhausted. -/
def try_selectors (card : Card) : List String → FindRes
  | [] => .noSuch
  | s :: rest =>
    match card.find s with
    | .found e => .found e
    | .noSuch => try_selectors card rest
    | .err => .err

/-- One text field of `_extract_job_data`: the first match's stripped text,
the field's default when every selector raises `NoSuchElementException`,
and `none` (the outer `except Exception: return None`) when a lookup raises
anything else. -/
def field_value (card : Card) (sels : List String) (dflt : String) : Option String :=
  match try_selectors card sels with
  | .found e => some (pyStrip e.text)
  | .noSuch => some dflt
  | .err => none

/-- Embeds the line
`job['url'].split('jk=')[1].split('&')[0] if 'jk=' in job['url'] else "unknown"`.
Python's `'jk=' in url` is equivalent to the split having at least two
pieces; the guarded `[1]` and the `[0]` can then never be out of range, so
they are embedded with `getD`. -/
def extract_job_id (url : String) : String :=
  if 2 ≤ (pySplit "jk=" url).length then
    (pySplit "&" ((pySplit "jk=" url).getD 1 "")).getD 0 ""
  else "unknown"

/-- The URL loop of `_extract_job_data`. When a selector matches but
`get_attribute("href")` returns Python `None`, the following membership
test `'jk=' in job['url']` raises `TypeError`, which the inner
`except (NoSuchElementException, IndexError)` does not catch; the outer
handler then returns `None`, so the whole extraction yields `none`. -/
def url_value (card : Card) : Option (String × String) :=
  match try_selectors card url_selectors with
  | .found e =>
    match e.href with
    | some u => some (u, extract_job_id u)
    | none => none
  | .noSuch => some ("Not available", "unknown")
  | .err => none

/-- Embeds `_extract_job_data(card)`: the job dict as an association list
in insertion order. `none` models the function returning Python `None`
through its outer exception handler. -/
def extract_job_data (card : Card) : Option (List (String × String)) := do
  let title ← field_value card title_selectors "Title not found"
  let company ← field_value card company_selectors "Company not found"
  let location ← field_value card location_selectors "Location not found"
  let salary ← field_value card salary_selectors "Not specified"
  let u ← url_value card
  let snippet ← field_value card snippet_selectors "Not available"
  let date_posted ← field_value card date_selectors "Not specified"
  return [("title", title), ("company", company), ("location", location),
    ("salary", salary), ("url", u.1), ("job_id", u.2),
    ("snippet", snippet), ("date_posted", date_posted)]

/-- The card-discovery loop shared by `extract_job_listings`: the first
selector whose `find_elements` succeeds with a non-empty list wins; a
raising or empty lookup moves on; `none` means the final
`if not job_cards or len(job_cards) == 0` check fires. -/
def find_job_cards (d : Driver) : List String → Option (List Card)
  | [] => none
  | s :: rest =>
    match d.findElements s with
    | some cards => if 0 < cards.length then some cards else find_job_cards d rest
    | none => find_job_cards d rest

/-- Embeds `extract_job_listings(self)`: the empty list when no job cards
are found, otherwise the per-card extractions with `None` results skipped
(`if job_data: jobs.append(job_data)` — the only falsy value
`_extract_job_data` can produce is `None`, since a successful dict always
has eight entries). -/
def extract_job_listings (d : Driver) : List (List (String × String)) :=
  match find_job_cards d card_selectors with
  | none => []
  | some cards => cards.filterMap extract_job_data

/-! ### manual_scraper.py: manual_navigate -/

/-- The page and driver conditions `manual_navigate` inspects, plus the
operator's keyboard input (one list entry per `input()` call).
`tryRaises` models an exception inside the `try` block before the prompt
loop, which routes control to the identical fallback prompt loop in the
`except` handler. -/
structure NavEnv where
  jobCardsFound : Bool
  challengeFound : Bool
  cookieDialogFound : Bool
  tryRaises : Bool
  inputs : List String

/-- The interactive `while True` prompt of `manual_navigate`:
`input("Command (done/save/quit): ").strip().lower()`, looping on anything
unrecognized. `done` and `save` break the loop and the function returns
`True` (`save` also writes the cookie file first); `quit` returns `False`.
`none` models a run that never completes because the input is exhausted. -/
def prompt_loop : List String → Option Bool
  | [] => none
  | i :: rest =>
    let c := pyLower (pyStrip i)
    if c = "done" then some true
    else if c = "save" then some true
    else if c = "quit" then some false
    else prompt_loop rest

/-- Embeds the control flow of `manual_navigate(url)`: automatic success
when job cards are visible with no challenge and no cookie dialog,
otherwise the prompt loop; an exception in the `try` block falls back to
the same prompt loop in the handler. -/
def manual_navigate (env : NavEnv) : Option Bool :=
  if env.tryRaises then prompt_loop env.inputs
  else if env.jobCardsFound && !env.challengeFound && !env.cookieDialogFound then some true
  else prompt_loop env.inputs

/-! ### utils.py: save_to_csv / save_to_json

Each saver is embedded as a pure function returning its Python return
value together with the list of filesystem effects it performs (the
`output` directory creation and the file write), so that "creates no
file" is a statement about that effect list. `timestamp` stands for
`datetime.now().strftime(...)`. -/

/-- Embeds `save_to_csv(data, filename=None)`. -/
def save_to_csv (data : List (List (String × String))) (filename : Option String)
    (timestamp : String) : Option String × List String :=
  if data.isEmpty then (none, [])
  else
    let fname := match filename with
      | some f => f
      | none => "indeed_jobs_" ++ timestamp ++ ".csv"
    let path := "output/" ++ fname
    (some path, ["mkdir output", "write " ++ path])

/-- Embeds `save_to_json(data, filename=None)`. -/
def save_to_json (data : List (List (String × String))) (filename : Option String)
    (timestamp : String) : Option String × List String :=
  if data.isEmpty then (none, [])
  else
    let fname := match filename with
      | some f => f
      | none => "indeed_jobs_" ++ timestamp ++ ".json"
    let path := "output/" ++ fname
    (some path, ["mkdir output", "write " ++ path])

/-! ### Concrete fixtures used by witnesses and counterexamples -/

/-- Join a list of strings with a separator (inverse of `pySplit` on its
output), used to state the claim-side job-id description. -/
def joinSep (sep : String) : List String → String
  | [] => ""
  | [x] => x
  | x :: y :: rest => x ++ sep ++ joinSep sep (y :: rest)

/-- Modelled from claim C10's words, not from the code: the substring of
`url` strictly between the first occurrence of `"jk="` and the next `'&'`
(or the end of the string) when the url contains `"jk="`, and `"unknown"`
otherwise. The text after the first `"jk="` is recovered by re-joining the
later split pieces with the separator. -/
def claim_job_id (url : String) : String :=
  if 2 ≤ (pySplit "jk=" url).length then
    (pySplit "&" (joinSep "jk=" ((pySplit "jk=" url).drop 1))).getD 0 ""
  else "unknown"

/-- A card on which every selector lookup raises `NoSuchElementException`. -/
def cardNoSuch : Card := ⟨fun _ => .noSuch⟩

/-- The job dict `_extract_job_data` produces for `cardNoSuch`: every field
at its sentinel default. -/
def jobDefaults : List (String × String) :=
  [("title", "Title not found"), ("company", "Company not found"),
   ("location", "Location not found"), ("salary", "Not specified"),
   ("url", "Not available"), ("job_id", "unknown"),
   ("snippet", "Not available"), ("date_posted", "Not specified")]

/-- A card where only the selector `"B"` matches. -/
def cardB : Card :=
  ⟨fun s => if s = "B" then .found ⟨"x", none⟩ else .noSuch⟩

/-- A driver on which every `find_elements` call raises. -/
def driverNone : Driver := ⟨fun _ => none⟩

/-- A job URL with a single `jk=` parameter. -/
def urlSingle : String := "https://de.indeed.com/rc/clk?jk=abc123&from=serp"

/-- A card whose second URL selector matches an anchor carrying
`urlSingle`; every other lookup raises `NoSuchElementException`. -/
def cardUrl : Card :=
  ⟨fun s => if s = "a.jcs-JobTitle" then .found ⟨"Dev", some urlSingle⟩ else .noSuch⟩

/-- The job dict extracted from `cardUrl`. -/
def jobUrl : List (String × String) :=
  [("title", "Title not found"), ("company", "Company not found"),
   ("location", "Location not found"), ("salary", "Not specified"),
   ("url", urlSingle), ("job_id", "abc123"),
   ("snippet", "Not available"), ("date_posted", "Not specified")]

/-- A job URL containing two occurrences of `jk=` before the first `&`. -/
def urlDouble : String := "https://de.indeed.com/rc/clk?jk=AAjk=BB&from=x"

/-- A card whose first URL selector matches an anchor carrying
`urlDouble`; every other lookup raises `NoSuchElementException`. -/
def cardJk : Card :=
  ⟨fun s => if s = "h2.jobTitle a" then .found ⟨"Dev", some urlDouble⟩ else .noSuch⟩

/-- The job dict extracted from `cardJk`: the code's split gives
`job_id = "AA"`. -/
def jobJk : List (String × String) :=
  [("title", "Title not found"), ("company", "Company not found"),
   ("location", "Location not found"), ("salary", "Not specified"),
   ("url", urlDouble), ("job_id", "AA"),
   ("snippet", "Not available"), ("date_posted", "Not specified")]

/-! ### Theorems -/

theorem replaceSpaces_data (s : String) :
    (replaceSpaces s).data = s.data.map spaceToPlus := rfl

theorem spaceToPlus_ne_space (c : Char) : spaceToPlus c ≠ ' ' := by
  unfold spaceToPlus
  by_cases h : c = ' ' <;> simp [h]

theorem mem_replaceSpaces_ne_space {s : String} {c : Char}
    (h : c ∈ (replaceSpaces s).data) : c ≠ ' ' := by
  rw [replaceSpaces_data] at h
  obtain ⟨a, _, rfl⟩ := List.mem_map.mp h
  exact spaceToPlus_ne_space a

/-- C1: `build_indeed_url` replaces every space of `job_title` and of
`location` with `'+'` before embedding them, so the two embedded fragments
contain no space character: the URL is built from `replaceSpaces job_title`
and `replaceSpaces location`, whose characters are all non-space. -/
theorem build_indeed_url_no_space_from_args
    (job_title location : String) (radius start limit : Int) :
    (build_indeed_url job_title location radius start limit =
      (let url := "https://de.indeed.com/jobs?q=" ++ replaceSpaces job_title ++ "&l=" ++
        replaceSpaces location ++ "&radius=" ++ toString radius ++ "&limit=" ++ toString limit
       if start > 0 then url ++ "&start=" ++ toString start else url)) ∧
    (∀ c ∈ (replaceSpaces job_title).data, c ≠ ' ') ∧
    (∀ c ∈ (replaceSpaces location).data, c ≠ ' ') := by
  refine ⟨rfl, ?_, ?_⟩ <;> intro c hc <;> exact mem_replaceSpaces_ne_space hc

/-- C1 witness at concrete arguments. -/
theorem build_indeed_url_no_space_from_args_witness :
    ∀ c ∈ (replaceSpaces "software engineer").data, c ≠ ' ' :=
  (build_indeed_url_no_space_from_args "software engineer" "Berlin" 25 0 15).2.1

/-- C2: the URL is the base string optionally followed by the pagination
suffix: when `start > 0` it is `base_url ++ "&start={start}"` (so the suffix
is a suffix of the URL's character list), and when `start = 0` it is exactly
`base_url`, with no start parameter appended. -/
theorem build_indeed_url_pagination
    (job_title location : String) (radius start limit : Int) :
    (start > 0 →
      build_indeed_url job_title location radius start limit =
        base_url job_title location radius limit ++ ("&start=" ++ toString start) ∧
      ("&start=" ++ toString start).data <:+
        (build_indeed_url job_title location radius start limit).data) ∧
    (start = 0 →
      build_indeed_url job_title location radius start limit =
        base_url job_title location radius limit) := by
  constructor
  · intro h
    have hurl : build_indeed_url job_title location radius start limit =
        base_url job_title location radius limit ++ ("&start=" ++ toString start) := by
      simp only [build_indeed_url, if_pos h]
      simp [String.append_assoc]
    refine ⟨hurl, ?_⟩
    rw [hurl]
    show ("&start=" ++ toString start).data <:+
      (base_url job_title location radius limit).data ++ ("&start=" ++ toString start).data
    exact List.suffix_append _ _
  · intro h
    simp [build_indeed_url, h]

/-- C2 witness: pagination suffix present for start = 30, absent for start = 0. -/
theorem build_indeed_url_pagination_witness :
    build_indeed_url "data scientist" "Munich" 10 30 20 =
      base_url "data scientist" "Munich" 10 20 ++ ("&start=" ++ toString (30 : Int)) ∧
    build_indeed_url "software engineer" "Berlin" 25 0 15 =
      base_url "software engineer" "Berlin" 25 15 :=
  ⟨((build_indeed_url_pagination "data scientist" "Munich" 10 30 20).1 (by decide)).1,
   (build_indeed_url_pagination "software engineer" "Berlin" 25 0 15).2 rfl⟩

/-- C3: no percent-encoding happens. Characterwise, every non-space
character is kept verbatim by the space replacement; the URL embeds the
mapped title and location strings positionally; and on the concrete input
`("C++ developer", "Frankfurt am Main")` the URL contains `q=C+++developer`
exactly as the repository's unit test asserts. -/
theorem build_indeed_url_no_percent_encoding :
    (∀ c : Char, c ≠ ' ' → spaceToPlus c = c) ∧
    (∀ (job_title location : String) (radius start limit : Int),
      (build_indeed_url job_title location radius start limit).data =
        "https://de.indeed.com/jobs?q=".data ++ job_title.data.map spaceToPlus ++
        "&l=".data ++ location.data.map spaceToPlus ++
        ("&radius=" ++ toString radius ++ "&limit=" ++ toString limit ++
          (if start > 0 then "&start=" ++ toString start else "")).data) ∧
    build_indeed_url "C++ developer" "Frankfurt am Main" 15 0 15 =
      "https://de.indeed.com/jobs?q=C+++developer&l=Frankfurt+am+Main&radius=15&limit=15" := by
  refine ⟨?_, ?_, by decide⟩
  · intro c h
    simp [spaceToPlus, h]
  · intro job_title location radius start limit
    by_cases h : start > 0 <;>
      simp [build_indeed_url, base_url, h, replaceSpaces, String.data_append]

/-- C3 witness: a concrete non-space character passes through unchanged. -/
theorem build_indeed_url_no_percent_encoding_witness : spaceToPlus '&' = '&' :=
  build_indeed_url_no_percent_encoding.1 '&' (by decide)

/-- C4: `build_indeed_url` is deterministic: equal arguments give equal
results. Its Lean embedding is a total pure function of its five arguments,
which is the shallow-embedding statement that the Python function reads and
writes no state outside its own locals. -/
theorem build_indeed_url_deterministic
    (jt jt' loc loc' : String) (r r' s s' l l' : Int)
    (h1 : jt = jt') (h2 : loc = loc') (h3 : r = r') (h4 : s = s') (h5 : l = l') :
    build_indeed_url jt loc r s l = build_indeed_url jt' loc' r' s' l' := by
  rw [h1, h2, h3, h4, h5]

/-- C4 witness at concrete equal arguments. -/
theorem build_indeed_url_deterministic_witness :
    build_indeed_url "a b" "c" 1 2 3 = build_indeed_url "a b" "c" 1 2 3 :=
  build_indeed_url_deterministic "a b" "a b" "c" "c" 1 1 2 2 3 3 rfl rfl rfl rfl rfl

/-- C5: every job dict returned (non-`none`) by `_extract_job_data` has
exactly the eight keys `title, company, location, salary, url, job_id,
snippet, date_posted` in insertion order, and a field whose selector list
is exhausted without a match carries its sentinel default string. -/
theorem extract_job_data_fields (card : Card) (job : List (String × String))
    (h : extract_job_data card = some job) :
    job.map Prod.fst = ["title", "company", "location", "salary", "url", "job_id",
      "snippet", "date_posted"] ∧
    (try_selectors card title_selectors = .noSuch →
      job.lookup "title" = some "Title not found") ∧
    (try_selectors card company_selectors = .noSuch →
      job.lookup "company" = some "Company not found") ∧
    (try_selectors card location_selectors = .noSuch →
      job.lookup "location" = some "Location not found") ∧
    (try_selectors card salary_selectors = .noSuch →
      job.lookup "salary" = some "Not specified") ∧
    (try_selectors card url_selectors = .noSuch →
      job.lookup "url" = some "Not available" ∧ job.lookup "job_id" = some "unknown") ∧
    (try_selectors card snippet_selectors = .noSuch →
      job.lookup "snippet" = some "Not available") ∧
    (try_selectors card date_selectors = .noSuch →
      job.lookup "date_posted" = some "Not specified") := by
  simp only [extract_job_data, bind, Option.bind_eq_some, pure, Option.some.injEq] at h
  obtain ⟨t, ht, c, hc, l, hl, sal, hsal, u, hu, sn, hsn, dp, hdp, hjob⟩ := h
  subst hjob
  refine ⟨rfl, ?_, ?_, ?_, ?_, ?_, ?_, ?_⟩
  · intro hns
    simp only [field_value, hns, Option.some.injEq] at ht
    subst ht; rfl
  · intro hns
    simp only [field_value, hns, Option.some.injEq] at hc
    subst hc; rfl
  · intro hns
    simp only [field_value, hns, Option.some.injEq] at hl
    subst hl; rfl
  · intro hns
    simp only [field_value, hns, Option.some.injEq] at hsal
    subst hsal; rfl
  · intro hns
    simp only [url_value, hns, Option.some.injEq] at hu
    subst hu; exact ⟨rfl, rfl⟩
  · intro hns
    simp only [field_value, hns, Option.some.injEq] at hsn
    subst hsn; rfl
  · intro hns
    simp only [field_value, hns, Option.some.injEq] at hdp
    subst hdp; rfl

/-- C5 witness: on the all-`NoSuchElementException` card the extraction
succeeds and the title field carries its sentinel. -/
theorem extract_job_data_fields_witness :
    List.lookup "title" jobDefaults = some "Title not found" :=
  (extract_job_data_fields cardNoSuch jobDefaults rfl).2.1 rfl

/-- C6: `extract_job_listings` always returns a list (its embedding is a
total function into lists): the empty list when the card-discovery loop
finds nothing, and otherwise exactly the per-card extractions with failed
(`None`) cards skipped; consequently every returned job comes from some
discovered card whose extraction succeeded. -/
theorem extract_job_listings_total (d : Driver) :
    (find_job_cards d card_selectors = none → extract_job_listings d = []) ∧
    (∀ cards, find_job_cards d card_selectors = some cards →
      extract_job_listings d = cards.filterMap extract_job_data) ∧
    (∀ j ∈ extract_job_listings d, ∃ cards,
      find_job_cards d card_selectors = some cards ∧
      ∃ card ∈ cards, extract_job_data card = some j) := by
  refine ⟨?_, ?_, ?_⟩
  · intro h
    simp [extract_job_listings, h]
  · intro cards h
    simp [extract_job_listings, h]
  · intro j hj
    unfold extract_job_listings at hj
    cases hfind : find_job_cards d card_selectors with
    | none => rw [hfind] at hj; simp at hj
    | some cards =>
      rw [hfind] at hj
      exact ⟨cards, rfl, List.mem_filterMap.mp hj⟩

/-- C6 witness: a driver on which every lookup raises yields the empty
list. -/
theorem extract_job_listings_total_witness : extract_job_listings driverNone = [] :=
  (extract_job_listings_total driverNone).1 rfl

/-- C7: the selector loop has first-match-wins semantics: if every
selector before `s` raises `NoSuchElementException` and `s` finds an
element, that element is the result regardless of the selectors after `s`;
the loop is exhausted exactly when every selector in the list misses; and
an exhausted loop makes the field take its default. -/
theorem try_selectors_first_match_wins :
    (∀ (card : Card) (pre : List String) (s : String) (post : List String) (e : Elem),
      (∀ t ∈ pre, card.find t = .noSuch) → card.find s = .found e →
      try_selectors card (pre ++ s :: post) = .found e) ∧
    (∀ (card : Card) (sels : List String),
      try_selectors card sels = .noSuch ↔ ∀ s ∈ sels, card.find s = .noSuch) ∧
    (∀ (card : Card) (sels : List String) (dflt : String),
      try_selectors card sels = .noSuch → field_value card sels dflt = some dflt) := by
  refine ⟨?_, ?_, ?_⟩
  · intro card pre s post e hpre hfound
    induction pre with
    | nil => simp [try_selectors, hfound]
    | cons t ts ih =>
      have ht : card.find t = .noSuch := hpre t (by simp)
      have hts : ∀ u ∈ ts, card.find u = .noSuch := fun u hu => hpre u (by simp [hu])
      simpa [try_selectors, ht] using ih hts
  · intro card sels
    induction sels with
    | nil => simp [try_selectors]
    | cons t ts ih =>
      constructor
      · intro h u hu
        cases hfind : card.find t with
        | found e => simp [try_selectors, hfind] at h
        | err => simp [try_selectors, hfind] at h
        | noSuch =>
          rcases List.mem_cons.mp hu with rfl | hu'
          · exact hfind
          · simp only [try_selectors, hfind] at h
            exact ih.mp h u hu'
      · intro h
        have ht : card.find t = .noSuch := h t (by simp)
        simp only [try_selectors, ht]
        exact ih.mpr fun u hu => h u (by simp [hu])
  · intro card sels dflt h
    simp [field_value, h]

/-- C7 witness: with selectors `["A", "B", "C"]` where only `"B"` matches,
the loop stops at `"B"`. -/
theorem try_selectors_first_match_wins_witness :
    try_selectors cardB (["A"] ++ "B" :: ["C"]) = .found ⟨"x", none⟩ :=
  try_selectors_first_match_wins.1 cardB ["A"] "B" ["C"] ⟨"x", none⟩
    (by decide) (by decide)

/-- C8: `manual_navigate` returns `False` only through the prompt loop,
and the prompt loop returns `false` only when some input trims and
lowercases to `"quit"`; automatic success (job cards, no challenge, no
cookie dialog, no exception) returns `True`, `done`/`save` return `True`,
and unrecognized input re-prompts — identically on the normal path and on
the exception-fallback path, which run the same loop. -/
theorem manual_navigate_quit_only (env : NavEnv) :
    (env.tryRaises = false → env.jobCardsFound = true → env.challengeFound = false →
      env.cookieDialogFound = false → manual_navigate env = some true) ∧
    (manual_navigate env = some false → prompt_loop env.inputs = some false) ∧
    (∀ inputs : List String, prompt_loop inputs = some false →
      ∃ i ∈ inputs, pyLower (pyStrip i) = "quit") ∧
    (∀ (i : String) (rest : List String),
      (pyLower (pyStrip i) = "done" ∨ pyLower (pyStrip i) = "save" →
        prompt_loop (i :: rest) = some true) ∧
      (pyLower (pyStrip i) = "quit" → prompt_loop (i :: rest) = some false) ∧
      (pyLower (pyStrip i) ≠ "done" → pyLower (pyStrip i) ≠ "save" →
        pyLower (pyStrip i) ≠ "quit" → prompt_loop (i :: rest) = prompt_loop rest)) := by
  refine ⟨?_, ?_, ?_, ?_⟩
  · intro h1 h2 h3 h4
    simp [manual_navigate, h1, h2, h3, h4]
  · intro h
    unfold manual_navigate at h
    by_cases h1 : env.tryRaises = true
    · simpa [h1] using h
    · rw [if_neg h1] at h
      by_cases h2 : (env.jobCardsFound && !env.challengeFound && !env.cookieDialogFound) = true
      · rw [if_pos h2] at h
        exact absurd h (by simp)
      · rwa [if_neg h2] at h
  · intro inputs h
    induction inputs with
    | nil => simp [prompt_loop] at h
    | cons i rest ih =>
      by_cases hd : pyLower (pyStrip i) = "done"
      · simp [prompt_loop, hd] at h
      · by_cases hs : pyLower (pyStrip i) = "save"
        · simp [prompt_loop, hd, hs] at h
        · by_cases hq : pyLower (pyStrip i) = "quit"
          · exact ⟨i, by simp, hq⟩
          · simp only [prompt_loop, hd, hs, hq, if_false, if_neg] at h
            obtain ⟨j, hj, hjq⟩ := ih h
            exact ⟨j, by simp [hj], hjq⟩
  · intro i rest
    refine ⟨?_, ?_, ?_⟩
    · rintro (hd | hs)
      · simp [prompt_loop, hd]
      · simp [prompt_loop, hs]
    · intro hq
      by_cases hd : pyLower (pyStrip i) = "done"
      · rw [hd] at hq; exact absurd hq (by decide)
      · by_cases hs : pyLower (pyStrip i) = "save"
        · rw [hs] at hq; exact absurd hq (by decide)
        · simp [prompt_loop, hd, hs, hq]
    · intro hd hs hq
      simp [prompt_loop, hd, hs, hq]

/-- C8 witness: a run that succeeds automatically returns `True`, and an
operator typing `quit` makes the prompt loop return `False`. -/
theorem manual_navigate_quit_only_witness :
    manual_navigate ⟨true, false, false, false, []⟩ = some true ∧
    prompt_loop ("quit" :: []) = some false :=
  ⟨(manual_navigate_quit_only ⟨true, false, false, false, []⟩).1 rfl rfl rfl rfl,
   ((manual_navigate_quit_only ⟨true, false, false, false, []⟩).2.2.2 "quit" []).2.1
     (by decide)⟩

/-- C9: on the empty data list both savers return `None` and perform no
filesystem effect (no directory creation, no file write); on a non-empty
list each returns a path and writes a file. -/
theorem save_empty_no_write (data : List (List (String × String)))
    (filename : Option String) (timestamp : String) :
    (save_to_csv [] filename timestamp = (none, []) ∧
      save_to_json [] filename timestamp = (none, [])) ∧
    (data ≠ [] →
      (save_to_csv data filename timestamp).1 ≠ none ∧
      (save_to_csv data filename timestamp).2 ≠ [] ∧
      (save_to_json data filename timestamp).1 ≠ none ∧
      (save_to_json data filename timestamp).2 ≠ []) := by
  constructor
  · exact ⟨rfl, rfl⟩
  · intro h
    cases data with
    | nil => exact absurd rfl h
    | cons d ds => simp [save_to_csv, save_to_json]

/-- C9 witness: empty list saves nothing; a one-job list writes a file. -/
theorem save_empty_no_write_witness :
    (save_to_csv [] none "20250101_000000" = (none, []) ∧
      save_to_json [] none "20250101_000000" = (none, [])) ∧
    ((save_to_csv [jobDefaults] none "20250101_000000").1 ≠ none ∧
      (save_to_csv [jobDefaults] none "20250101_000000").2 ≠ [] ∧
      (save_to_json [jobDefaults] none "20250101_000000").1 ≠ none ∧
      (save_to_json [jobDefaults] none "20250101_000000").2 ≠ []) :=
  ⟨(save_empty_no_write [jobDefaults] none "20250101_000000").1,
   (save_empty_no_write [jobDefaults] none "20250101_000000").2 (by simp [jobDefaults])⟩

/-- C10 counterexample: on a card whose URL is
`"https://de.indeed.com/rc/clk?jk=AAjk=BB&from=x"` — a URL with a second
`jk=` before the first `&` — the code stores `job_id = "AA"`, while the
claim's description (text strictly between the first `jk=` and the next
`&`) demands `"AAjk=BB"`. -/
theorem extract_job_data_job_id_counterexample :
    extract_job_data cardJk = some jobJk ∧
    List.lookup "url" jobJk = some urlDouble ∧
    List.lookup "job_id" jobJk = some "AA" ∧
    claim_job_id urlDouble = "AAjk=BB" ∧
    ("AA" : String) ≠ "AAjk=BB" :=
  ⟨rfl, rfl, rfl, by decide, by decide⟩

/-- C10 amended: when a URL selector matches and the anchor's `href` is a
string `u`, the job dict stores `url = u` and `job_id = extract_job_id u`:
the text after the first `jk=` truncated at the next occurrence of `jk=`
or `&`, whichever comes first (Python `u.split('jk=')[1].split('&')[0]`),
or `"unknown"` when `u` does not contain `jk=`; when no URL selector
matches, `url` is `"Not available"` and `job_id` is `"unknown"`. -/
theorem extract_job_data_job_id (card : Card) (job : List (String × String))
    (hjob : extract_job_data card = some job) :
    (∀ (e : Elem) (u : String), try_selectors card url_selectors = .found e →
      e.href = some u →
      job.lookup "url" = some u ∧ job.lookup "job_id" = some (extract_job_id u)) ∧
    (try_selectors card url_selectors = .noSuch →
      job.lookup "url" = some "Not available" ∧ job.lookup "job_id" = some "unknown") ∧
    (∀ v : String, (pySplit "jk=" v).length < 2 → extract_job_id v = "unknown") := by
  simp only [extract_job_data, bind, Option.bind_eq_some, pure, Option.some.injEq] at hjob
  obtain ⟨t, ht, c, hc, l, hl, sal, hsal, u, hu, sn, hsn, dp, hdp, hj⟩ := hjob
  subst hj
  refine ⟨?_, ?_, ?_⟩
  · intro e v hfind hhref
    simp only [url_value, hfind, hhref, Option.some.injEq] at hu
    subst hu
    exact ⟨rfl, rfl⟩
  · intro hns
    simp only [url_value, hns, Option.some.injEq] at hu
    subst hu
    exact ⟨rfl, rfl⟩
  · intro v hv
    simp [extract_job_id, Nat.not_le.mpr hv]

/-- C10 amended witness: on a card carrying a single-`jk=` URL, the job
dict stores that URL and the code's job id for it. -/
theorem extract_job_data_job_id_witness :
    List.lookup "url" jobUrl = some urlSingle ∧
    List.lookup "job_id" jobUrl = some (extract_job_id urlSingle) :=
  (extract_job_data_job_id cardUrl jobUrl rfl).1 ⟨"Dev", some urlSingle⟩ urlSingle rfl rfl

end JobScraper
